import Mathlib

/-!
Verification of the incremental email pipeline (NLP-Project).

Shallow embedding of the pipeline code:
  * `Gmailread`  — `Code/gmail_read.py` (delta fetch of new message ids)
  * `Predict`    — `Code/predict.py` (incremental classification merge)
  * `AgentV2`    — `Code/inbox_agent_gmail_ml_v2.py` (hybrid decision layer)
  * `AutoTrain`  — `Code/auto_train_job_email_model.py` (weak-supervision labeler)
  * `Rag`        — `Code/rag.py` (vector-store sync and query layer)

Python string membership (`needle in hay`) is embedded as `inStr`,
a substring test on the character lists of the two strings.
-/

namespace Pipeline

/-- ASCII lowercase of one character, as Python `str.lower` does on ASCII. -/
def lowerChar (c : Char) : Char :=
  if 65 ≤ c.toNat ∧ c.toNat ≤ 90 then Char.ofNat (c.toNat + 32) else c

/-- Embedding of Python `s.lower()` (ASCII). Written on the character list so that it
evaluates by kernel reduction. -/
def strLower (s : String) : String :=
  ⟨s.toList.map lowerChar⟩

/-- Whether `needle` is a leading segment of `hay`. -/
def leadMatch : List Char → List Char → Bool
  | [], _ => true
  | _ :: _, [] => false
  | a :: as, b :: bs => a == b && leadMatch as bs

/-- Whether `needle` occurs contiguously somewhere inside `hay`. -/
def subMatch : List Char → List Char → Bool
  | [], needle => needle.isEmpty
  | a :: rest, needle => leadMatch needle (a :: rest) || subMatch rest needle

/-- Embedding of Python `needle in hay` on strings: substring containment. -/
def inStr (needle hay : String) : Bool :=
  subMatch hay.toList needle.toList

/-- Embedding of Python `any(p in t for p in ps)`. -/
def anyIn (ps : List String) (t : String) : Bool :=
  ps.any (fun p => inStr p t)

end Pipeline

namespace AgentV2

open Pipeline

/-- The `JOB_DOMAINS_INFER` list from `inbox_agent_gmail_ml_v2.py`. -/
def JOB_DOMAINS_INFER : List String :=
  ["indeed", "linkedin", "handshake", "joinhandshake", "workday", "myworkday",
   "greenhouse", "bamboohr", "icims", "smartrecruiters", "lever.co", "jazzhr",
   "monster", "careerbuilder", "workable", "eightfold"]

/-- The `STRONG_SUBJECT_INFER` list from `inbox_agent_gmail_ml_v2.py`. -/
def STRONG_SUBJECT_INFER : List String :=
  ["application received", "application submitted", "application update",
   "thank you for applying", "your application", "job application",
   "we received your application", "we have received your application",
   "interview invitation", "invitation to interview", "schedule your interview",
   "job offer", "offer letter"]

/-- The `STRONG_BODY_INFER` list from `inbox_agent_gmail_ml_v2.py`. -/
def STRONG_BODY_INFER : List String :=
  ["this email is to serve as confirmation that we are in receipt of your application",
   "confirmation that we are in receipt of your application",
   "we are in receipt of your application",
   "we have received your application",
   "your application has been received",
   "thank you for applying",
   "your application is currently being reviewed",
   "a dedicated member of our talent acquisition team will be in contact",
   "a member of our talent acquisition team will be in contact",
   "a recruiter will be in contact",
   "we regret to inform you",
   "we have decided not to move forward with your application",
   "schedule an interview",
   "interview invitation",
   "invitation to interview"]

/-- Function `has_strong_job_signal` from `inbox_agent_gmail_ml_v2.py`:
platform/ATS sender, or a strong subject phrase, or a strong body phrase. -/
def has_strong_job_signal (subject body sender : String) : Bool :=
  let subj := strLower subject
  let text := strLower (subject ++ " [SEP] " ++ body)
  let sender_lower := strLower sender
  if JOB_DOMAINS_INFER.any (fun dom => inStr dom sender_lower) then true
  else if STRONG_SUBJECT_INFER.any (fun p => inStr p subj) then true
  else if STRONG_BODY_INFER.any (fun p => inStr p text) then true
  else false

/-- The category decision of `InboxAgentGmailML.process_and_update_csv`:
an email is kept (accepted) unless it has no strong signal and its model
probability is below the threshold
(`if (not strong) and (p_job < self.prob_threshold): continue`). -/
def accepts (prob_threshold : ℚ) (subject body sender : String) (p_job : ℚ) : Bool :=
  let strong := has_strong_job_signal subject body sender
  if !strong && decide (p_job < prob_threshold) then false else true

/-- The `APPLICATION_CONFIRM_WORDS` list from `inbox_agent_gmail_ml_v2.py`. -/
def APPLICATION_CONFIRM_WORDS : List String :=
  ["application received", "thank you for applying",
   "we have received your application", "your application has been received",
   "this email is to serve as confirmation that we are in receipt of your application",
   "we are in receipt of your application",
   "your application is currently being reviewed"]

/-- The `INTERVIEW_WORDS` list from `inbox_agent_gmail_ml_v2.py`. -/
def INTERVIEW_WORDS : List String :=
  ["schedule an interview", "interview invitation", "invitation to interview",
   "virtual interview", "onsite interview", "phone interview"]

/-- The `REJECTION_WORDS` list from `inbox_agent_gmail_ml_v2.py`. -/
def REJECTION_WORDS : List String :=
  ["we regret to inform you", "not moving forward with your application",
   "we have decided not to move forward", "your application was not selected",
   "we will not be moving forward"]

/-- Function `infer_job_status` from `inbox_agent_gmail_ml_v2.py`. -/
def infer_job_status (text : String) : String :=
  let t := strLower text
  if APPLICATION_CONFIRM_WORDS.any (fun kw => inStr kw t) then "APPLICATION_CONFIRMATION"
  else if INTERVIEW_WORDS.any (fun kw => inStr kw t) then "INTERVIEW_INVITE"
  else if REJECTION_WORDS.any (fun kw => inStr kw t) then "REJECTION"
  else "OTHER_JOB_EMAIL"

/-- Function `applied_flag_from_status` from `inbox_agent_gmail_ml_v2.py`. -/
def applied_flag_from_status (status : String) : Nat :=
  if status ∈ ["APPLICATION_CONFIRMATION", "INTERVIEW_INVITE", "REJECTION"] then 1 else 0

end AgentV2

namespace AutoTrain

open Pipeline

/-- The `JOB_DOMAINS` list from `auto_train_job_email_model.py`. -/
def JOB_DOMAINS : List String :=
  ["indeed", "linkedin", "handshake", "joinhandshake", "ziprecruiter", "glassdoor",
   "workday", "myworkday", "greenhouse", "bamboohr", "icims", "smartrecruiters",
   "lever.co", "jazzhr", "monster", "careerbuilder", "workable", "eightfold",
   "nexxt", "lensa", "jobfalcon", "careerpi", "aptena"]

/-- The `NEGATIVE_DOMAINS` list from `auto_train_job_email_model.py`: senders that are
known not to be job emails (banks, food, streaming, shopping). -/
def NEGATIVE_DOMAINS : List String :=
  ["sofi", "bankofamerica", "bofa", "chase", "wellsfargo", "capitalone",
   "americanexpress", "amex", "starbucks", "ubereats", "doordash", "grubhub",
   "mcdonalds", "burgerking", "dominos", "netflix", "spotify", "apple.com",
   "appleid", "primevideo", "hulu", "disneyplus", "amazon", "amzn"]

/-- Function `is_probably_job_sender` from `auto_train_job_email_model.py`. -/
def is_probably_job_sender (sender : String) : Bool :=
  JOB_DOMAINS.any (fun dom => inStr dom (strLower sender))

/-- Function `is_negative_sender` from `auto_train_job_email_model.py`. -/
def is_negative_sender (sender : String) : Bool :=
  NEGATIVE_DOMAINS.any (fun dom => inStr dom (strLower sender))

/-- The `STRONG_SUBJECT` list local to `is_job_email_rule`. -/
def STRONG_SUBJECT_TRAIN : List String :=
  ["your application", "application received", "application update",
   "application submitted", "thank you for applying",
   "we received your application", "we have received your application",
   "interview", "interview invitation", "virtual interview", "onsite interview",
   "next steps", "offer letter", "job offer", "role:", "position:",
   "position -", "position "]

/-- The `STRONG_BODY` list local to `is_job_email_rule`. -/
def STRONG_BODY_TRAIN : List String :=
  ["your application has been received", "we have received your application",
   "this is to confirm your application", "thank you for applying",
   "we regret to inform you", "we have decided not to move forward",
   "schedule an interview", "interview invitation", "invitation to interview"]

/-- Function `is_job_email_rule` from `auto_train_job_email_model.py`:
the weak-supervision labeling rule used to create training labels.
Hard-negative senders are checked first and force label 0. -/
def is_job_email_rule (subject body sender : String) : Nat :=
  let sender_lower := strLower sender
  let subj := strLower subject
  let text := strLower (subject ++ " [SEP] " ++ body)
  if is_negative_sender sender_lower then 0
  else if STRONG_SUBJECT_TRAIN.any (fun p => inStr p subj) then 1
  else if STRONG_BODY_TRAIN.any (fun p => inStr p text) then 1
  else if is_probably_job_sender sender_lower then 1
  else 0

end AutoTrain

namespace Predict

/-- One row of the raw Gmail export `gmail_subject_body_date.xlsx`
(`df_src` in `EmailJobClassifier.classify`); only the columns the merge
touches are modelled.  The export carries no `job_label`/`prob_job`
columns, so the base dataframe starts with both set to NA. -/
structure SrcRow where
  id : String
  subject : String
  body : String

/-- One row of the previously persisted classified store
(`df_old` in `EmailJobClassifier.classify`), restricted to the columns the
merge pulls (`cols_to_pull = ["id", "job_label", "prob_job"]`).
`none` models pandas NA. -/
structure OldRow where
  id : String
  job_label : Option Nat
  prob_job : Option Rat

/-- One row of the merged/classified dataframe `df`. -/
@[ext]
structure ClsRow where
  id : String
  subject : String
  body : String
  text : String
  job_label : Option Nat
  prob_job : Option Rat

/-- The old classified store file on disk: missing, unreadable
(zero-length or unparsable), or readable with rows. -/
inductive OldFileState where
  | absent
  | corrupt
  | ok (rows : List OldRow)

/-- Embedding of `EmailJobClassifier.load_excel_safely`: `pd.read_excel` wrapped in
try/except; on any failure it prints an error and calls `sys.exit(1)`,
modelled as `Except.error`. -/
def load_excel_safely : OldFileState → Except String (List OldRow)
  | .ok rows => .ok rows
  | _ => .error "[ERROR] Unable to read Excel file"

/-- The row of `df_old` that the left merge matches for a given id:
`drop_duplicates(subset=["id"])` keeps the first occurrence, so the merge
pulls the first old row with that id. -/
def oldLookup (df_old : List OldRow) (i : String) : Option OldRow :=
  df_old.find? (fun r => r.id == i)

/-- Steps 3-4 of `classify` for one row: start from the source row with
`job_label`/`prob_job` = NA, left-merge the old store by id and fill the
NA fields from it, and build `text = subject + " " + body`. -/
def mergeRow (df_old : Option (List OldRow)) (r : SrcRow) : ClsRow :=
  let text := r.subject ++ " " ++ r.body
  match df_old with
  | none => ⟨r.id, r.subject, r.body, text, none, none⟩
  | some old =>
    match oldLookup old r.id with
    | none => ⟨r.id, r.subject, r.body, text, none, none⟩
    | some orow => ⟨r.id, r.subject, r.body, text, orow.job_label, orow.prob_job⟩

/-- Step 5 of `classify` for one row: rows whose `job_label` is still NA
(`mask_new`) receive `model.predict` / `model.predict_proba[:, 1]` of
their text; all other rows are untouched. -/
def stepRow (model : String → Nat × Rat) (r : ClsRow) : ClsRow :=
  if r.job_label.isNone then
    { r with job_label := some (model r.text).1, prob_job := some (model r.text).2 }
  else r

/-- Step 5 of `classify` over the whole dataframe. -/
def classifyRows (model : String → Nat × Rat) (rows : List ClsRow) : List ClsRow :=
  rows.map (stepRow model)

/-- The batch `texts_new = df.loc[mask_new, "text"]`: the batch of texts handed to
the classification model (empty when nothing needs classification, in
which case the model is never invoked). -/
def texts_new (rows : List ClsRow) : List String :=
  (rows.filter (fun r => r.job_label.isNone)).map (fun r => r.text)

/-- What one run of `classify` persists and which texts it sent to the
classification model. -/
structure ClassifyResult where
  output : List ClsRow
  batchTexts : List String

/-- Embedding of `EmailJobClassifier.classify`, given the current raw store and the
state of the old classified store file.  If the old file exists but is
unreadable, `load_excel_safely` terminates the run. -/
def classify (model : String → Nat × Rat) (df_src : List SrcRow)
    (oldFile : OldFileState) : Except String ClassifyResult :=
  match oldFile with
  | .absent =>
      let base := df_src.map (mergeRow none)
      .ok ⟨classifyRows model base, texts_new base⟩
  | f =>
      match load_excel_safely f with
      | .error e => .error e
      | .ok df_old =>
          let base := df_src.map (mergeRow (some df_old))
          .ok ⟨classifyRows model base, texts_new base⟩

/-- Projection of a persisted classified row to the columns the next
run's merge pulls from it. -/
def toOldRow (r : ClsRow) : OldRow :=
  ⟨r.id, r.job_label, r.prob_job⟩

end Predict

namespace Gmailread

/-- What `GmailLiveReader.get_details` obtains from the message-source
collaborator for one id (the decoded headers and body). -/
structure MsgDetail where
  sender_name : String
  sender_email : String
  subject : String
  body : String
  date_received : String

/-- One row of the dataframe returned by `fetch_new_as_dataframe`. -/
structure MailRow where
  id : String
  sender_name : String
  sender_email : String
  subject : String
  body : String
  date_received : String
  gmail_link : String

/-- Embedding of `GmailLiveReader.get_details`: the returned dict carries the message
id itself and the derived `gmail_link = gmail_web_base + msg_id`. -/
def get_details (detail : String → MsgDetail) (gmail_web_base msg_id : String) : MailRow :=
  let d := detail msg_id
  ⟨msg_id, d.sender_name, d.sender_email, d.subject, d.body, d.date_received,
   gmail_web_base ++ msg_id⟩

/-- Result of `fetch_new_as_dataframe`: the returned dataframe rows and
the `seen_ids` set after the in-place mutation. -/
structure FetchResult where
  rows : List MailRow
  seen : Finset String

/-- Embedding of `GmailLiveReader.fetch_new_as_dataframe(query, seen_ids)`:
`all_ids = list_ids(query)` is the upstream listing (a collaborator
result, passed in as `upstream`); `new_ids` keeps the ids not in
`seen_ids`; details are fetched for new ids only, each of which is added
to `seen_ids`. -/
def fetch_new_as_dataframe (detail : String → MsgDetail) (gmail_web_base : String)
    (upstream : List String) (seen_ids : Finset String) : FetchResult :=
  let new_ids := upstream.filter (fun mid => decide (mid ∉ seen_ids))
  ⟨new_ids.map (get_details detail gmail_web_base),
   new_ids.foldl (fun s mid => insert mid s) seen_ids⟩

end Gmailread

namespace Rag

/-- One row of `mail_classified_llm_parsed.xlsx` after the
`required_cols` check and `mail_link` fill/astype in `rag.py`. -/
structure ParsedRow where
  mailcontent : String
  company_name : String
  position_applied : String
  application_date : String
  status : String
  mail_link : String

/-- The `doc_id` derivation in `rag.py`: the stable natural key is
`mail_link`; rows with an empty link fall back to the synthetic key
`"row_{i}"` built from the row position. -/
def doc_id_of (i : Nat) (r : ParsedRow) : String :=
  if r.mail_link = "" then "row_" ++ toString i else r.mail_link

/-- The dataframe with its derived `doc_id` column: each row paired with
`doc_id_of` of its positional index. -/
def withDocIds (df : List ParsedRow) : List (String × ParsedRow) :=
  df.enum.map (fun p => (doc_id_of p.1 p.2, p.2))

/-- The metadata stored with each vector, as selected in `rag.py`. -/
structure VecMeta where
  company_name : String
  position_applied : String
  application_date : String
  status : String
  mail_link : String

/-- One entry of the Chroma collection `job_email_collection`. -/
structure VecEntry where
  doc_id : String
  document : String
  metadata : VecMeta
  embedding : List Rat

/-- The set `existing_ids = set(existing.get("ids", []))`: the ids already in the
vector store. -/
def existingIds (store : List VecEntry) : List String :=
  store.map (fun e => e.doc_id)

/-- The delta `df_new = df[~df["doc_id"].isin(existing_ids)]`: the delta of rows
whose derived doc_id is not yet in the store. -/
def newRows (store : List VecEntry) (df : List ParsedRow) : List (String × ParsedRow) :=
  (withDocIds df).filter (fun p => decide (p.1 ∉ existingIds store))

/-- The record `metadatas = df_new[[...]].to_dict(orient="records")` for one row. -/
def metaOf (r : ParsedRow) : VecMeta :=
  ⟨r.company_name, r.position_applied, r.application_date, r.status, r.mail_link⟩

/-- The entry `collection.add` stores for one delta row: its doc_id, its
`mailcontent` document, its metadata, and the embedding computed by the
embedding collaborator on the document. -/
def entryOf (embed : String → List Rat) (p : String × ParsedRow) : VecEntry :=
  ⟨p.1, p.2.mailcontent, metaOf p.2, embed p.2.mailcontent⟩

/-- Result of one incremental sync: the vector store afterwards and the
batch of documents sent to the embedding collaborator. -/
structure SyncResult where
  newStore : List VecEntry
  embedded : List String

/-- The module-level incremental sync of `rag.py`: compute the delta
`df_new`; if it is empty do nothing, otherwise embed exactly the delta
documents in one batch and `collection.add` them. -/
def sync (embed : String → List Rat) (store : List VecEntry) (df : List ParsedRow) : SyncResult :=
  let df_new := newRows store df
  if df_new.isEmpty then ⟨store, []⟩
  else ⟨store ++ df_new.map (entryOf embed), df_new.map (fun p => p.2.mailcontent)⟩

/-- Iterated runs of the incremental sync, one per classified-store
snapshot. -/
def runAll (embed : String → List Rat) (store : List VecEntry)
    (dfs : List (List ParsedRow)) : List VecEntry :=
  dfs.foldl (fun st d => (sync embed st d).newStore) store

/-- One retrieved document (LangChain `Document`): page content plus its
metadata rendered for the prompt. -/
structure Doc where
  page_content : String
  metadata : String

/-- The LangGraph state `RAGState` of `rag.py`. -/
structure RAGState where
  question : String
  retrieved_docs : List Doc
  answer : String

/-- The fixed no-match answer of `llm_node`. -/
def NO_MATCH_ANSWER : String :=
  "I couldn\x27t find any matching job application emails for this question."

/-- The `PromptTemplate` of `rag.py` instantiated with question and
context. -/
def prompt_template (question context : String) : String :=
  "\nYou are an assistant specializing in understanding job application emails.\n\nUse ONLY the context given. Do NOT guess or hallucinate.\n\nQUESTION:\n" ++
    question ++ "\n\nCONTEXT FROM EMAILS:\n" ++ context ++
    "\n\nProvide a concise, accurate status update:\n"

/-- Result of `llm_node`: the updated state and the prompts sent to the
generation collaborator. -/
structure LlmNodeResult where
  state : RAGState
  llmCalls : List String

/-- Embedding of `llm_node` from `rag.py`: with no retrieved documents it answers with
the fixed no-match string and never invokes the generation collaborator;
otherwise it builds the context block, formats the prompt, and invokes
the collaborator once. -/
def llm_node (llm : String → String) (state : RAGState) : LlmNodeResult :=
  if state.retrieved_docs.isEmpty then
    ⟨{ state with answer := NO_MATCH_ANSWER }, []⟩
  else
    let context := String.intercalate "\n\n"
      (state.retrieved_docs.map
        (fun doc => "EMAIL:\n" ++ doc.page_content ++ "\nMETADATA: " ++ doc.metadata))
    let final_prompt := prompt_template state.question context
    ⟨{ state with answer := (llm final_prompt).trim }, [final_prompt]⟩

end Rag

namespace Witness

/-- A concrete classification collaborator for witness runs. -/
def modelW : String → Nat × Rat := fun _ => (1, 1)

/-- A concrete raw store for witness runs. -/
def srcW : List Predict.SrcRow := [⟨"a", "apps", "bod"⟩]

/-- A concrete prior classified store: id "a" already labelled 0. -/
def oldW : List Predict.OldRow := [⟨"a", some 0, some 1⟩]

/-- The classified store produced by the first witness run. -/
def res1W : Predict.ClassifyResult :=
  ⟨Predict.classifyRows modelW (srcW.map (Predict.mergeRow none)),
   Predict.texts_new (srcW.map (Predict.mergeRow none))⟩

/-- A concrete embedding collaborator for witness runs. -/
def embedW : String → List Rat := fun _ => [1]

/-- A concrete vector store already holding doc_id "link1". -/
def storeW : List Rag.VecEntry :=
  [⟨"link1", "doc", ⟨"c", "p", "d", "s", "link1"⟩, [1]⟩]

/-- A concrete parsed classified store whose single row derives doc_id
"link1". -/
def dfW : List Rag.ParsedRow := [⟨"doc", "c", "p", "d", "s", "link1"⟩]

/-- A concrete generation collaborator for witness runs. -/
def llmW : String → String := fun _ => "generated"

/-- A concrete RAG state with zero retrieved documents. -/
def stateW : Rag.RAGState := ⟨"q", [], ""⟩

/-- A concrete message-source collaborator for witness runs. -/
def detailW : String → Gmailread.MsgDetail :=
  fun _ => ⟨"n", "e@x.com", "subj", "bod", "2025-12-06"⟩

end Witness

namespace Predict

theorem stepRow_of_some (model : String → Nat × Rat) (r : ClsRow) (l : Nat)
    (h : r.job_label = some l) : stepRow model r = r := by
  simp [stepRow, h]

theorem stepRow_id (model : String → Nat × Rat) (r : ClsRow) :
    (stepRow model r).id = r.id := by
  unfold stepRow; split <;> rfl

theorem stepRow_subject (model : String → Nat × Rat) (r : ClsRow) :
    (stepRow model r).subject = r.subject := by
  unfold stepRow; split <;> rfl

theorem stepRow_body (model : String → Nat × Rat) (r : ClsRow) :
    (stepRow model r).body = r.body := by
  unfold stepRow; split <;> rfl

theorem stepRow_text (model : String → Nat × Rat) (r : ClsRow) :
    (stepRow model r).text = r.text := by
  unfold stepRow; split <;> rfl

theorem stepRow_label_isSome (model : String → Nat × Rat) (r : ClsRow) :
    ((stepRow model r).job_label).isSome = true := by
  unfold stepRow
  cases h : r.job_label <;> simp [h]

theorem classifyRows_getElem (model : String → Nat × Rat) (rows : List ClsRow) (n : Nat) :
    (classifyRows model rows)[n]? = rows[n]?.map (stepRow model) := by
  simp [classifyRows]

theorem mergeRow_found (df_old : List OldRow) (r : SrcRow) (orow : OldRow)
    (h : oldLookup df_old r.id = some orow) :
    mergeRow (some df_old) r =
      ⟨r.id, r.subject, r.body, r.subject ++ " " ++ r.body, orow.job_label, orow.prob_job⟩ := by
  simp [mergeRow, h]

theorem mergeRow_id (o : Option (List OldRow)) (r : SrcRow) : (mergeRow o r).id = r.id := by
  unfold mergeRow
  cases o with
  | none => rfl
  | some old => cases h : oldLookup old r.id <;> simp [h]

end Predict

/-- Claim C1: In a run of `EmailJobClassifier.classify` against a readable
previous classified store, every source row whose id is matched in the
old store with a non-null `job_label` keeps the old `job_label` and
`prob_job` exactly in the persisted output, its row passes through the
prediction step untouched, and the batch handed to the model is exactly
the texts of the merged rows whose label is still null. -/
theorem classify_preserves_prior_labels
    (model : String → Nat × Rat) (df_src : List Predict.SrcRow)
    (df_old : List Predict.OldRow) (n : Nat) (srow : Predict.SrcRow)
    (orow : Predict.OldRow) (l : Nat)
    (hsrc : df_src[n]? = some srow)
    (hfind : Predict.oldLookup df_old srow.id = some orow)
    (hl : orow.job_label = some l) :
    ∃ res, Predict.classify model df_src (.ok df_old) = .ok res
      ∧ res.output[n]? = some (Predict.mergeRow (some df_old) srow)
      ∧ (Predict.mergeRow (some df_old) srow).job_label = some l
      ∧ (Predict.mergeRow (some df_old) srow).prob_job = orow.prob_job
      ∧ res.batchTexts = Predict.texts_new (df_src.map (Predict.mergeRow (some df_old))) := by
  have hmerge := Predict.mergeRow_found df_old srow orow hfind
  have hlab : (Predict.mergeRow (some df_old) srow).job_label = some l := by
    rw [hmerge]; exact hl
  refine ⟨_, rfl, ?_, hlab, ?_, rfl⟩
  · rw [Predict.classifyRows_getElem]
    simp only [List.getElem?_map, hsrc, Option.map_some']
    rw [Predict.stepRow_of_some model _ l hlab]
  · rw [hmerge]

/-- Witness for C1: a run whose old store labels id "a" with 0 while the
model would say 1; the persisted row keeps label 0 and probability 1. -/
theorem classify_preserves_prior_labels_witness :
    ∃ res, Predict.classify Witness.modelW Witness.srcW (.ok Witness.oldW) = .ok res
      ∧ res.output[0]? = some (Predict.mergeRow (some Witness.oldW) ⟨"a", "apps", "bod"⟩)
      ∧ (Predict.mergeRow (some Witness.oldW) ⟨"a", "apps", "bod"⟩).job_label = some 0
      ∧ (Predict.mergeRow (some Witness.oldW) ⟨"a", "apps", "bod"⟩).prob_job =
          (⟨"a", some 0, some 1⟩ : Predict.OldRow).prob_job
      ∧ res.batchTexts =
          Predict.texts_new (Witness.srcW.map (Predict.mergeRow (some Witness.oldW))) :=
  classify_preserves_prior_labels Witness.modelW Witness.srcW Witness.oldW 0
    ⟨"a", "apps", "bod"⟩ ⟨"a", some 0, some 1⟩ 0 rfl rfl rfl

/-- Claim C10: A run of `classify` against a readable old store persists
exactly one row per current source row (same length, same ids in order):
the merge left-joins onto the source as base, so an old-store row whose
id is no longer in the source leaves no row in the output. -/
theorem classify_output_rows_match_source (model : String → Nat × Rat)
    (df_src : List Predict.SrcRow) (df_old : List Predict.OldRow) :
    ∃ res, Predict.classify model df_src (.ok df_old) = .ok res
      ∧ res.output.length = df_src.length
      ∧ res.output.map Predict.ClsRow.id = df_src.map Predict.SrcRow.id
      ∧ ∀ orow ∈ df_old, orow.id ∉ df_src.map Predict.SrcRow.id →
          orow.id ∉ res.output.map Predict.ClsRow.id := by
  have hmap : (Predict.classifyRows model (df_src.map (Predict.mergeRow (some df_old)))).map
      Predict.ClsRow.id = df_src.map Predict.SrcRow.id := by
    unfold Predict.classifyRows
    rw [List.map_map, List.map_map]
    apply List.map_congr_left
    intro r _
    show (Predict.stepRow model (Predict.mergeRow (some df_old) r)).id = r.id
    rw [Predict.stepRow_id, Predict.mergeRow_id]
  refine ⟨_, rfl, ?_, hmap, ?_⟩
  · simp [Predict.classifyRows]
  · intro orow _ hnot
    rw [hmap]; exact hnot

/-- Witness for C10 at a concrete run. -/
theorem classify_output_rows_match_source_witness :
    ∃ res, Predict.classify Witness.modelW Witness.srcW (.ok Witness.oldW) = .ok res
      ∧ res.output.length = Witness.srcW.length
      ∧ res.output.map Predict.ClsRow.id = Witness.srcW.map Predict.SrcRow.id
      ∧ ∀ orow ∈ Witness.oldW, orow.id ∉ Witness.srcW.map Predict.SrcRow.id →
          orow.id ∉ res.output.map Predict.ClsRow.id :=
  classify_output_rows_match_source Witness.modelW Witness.srcW Witness.oldW

/-- Claim C5, counterexample: When the previous classified store file
exists but is unreadable (zero-length or unparsable), `classify` does not
treat it as absent: `load_excel_safely` terminates the run, so the run
aborts instead of completing. -/
theorem classify_corrupt_store_aborts :
    Predict.classify Witness.modelW Witness.srcW .corrupt =
      .error "[ERROR] Unable to read Excel file" := rfl

/-- Claim C5, amended: Only a *missing* previous classified store is
treated as "no prior state": then every row is (re)classified and the run
completes; an existing but unreadable store file instead aborts the run
via `load_excel_safely`. -/
theorem classify_absent_vs_corrupt_store (model : String → Nat × Rat)
    (df_src : List Predict.SrcRow) :
    (∃ res, Predict.classify model df_src .absent = .ok res
       ∧ res.batchTexts = (df_src.map (Predict.mergeRow none)).map Predict.ClsRow.text
       ∧ res.output.length = df_src.length
       ∧ ∀ r ∈ res.output, r.job_label.isSome = true)
    ∧ Predict.classify model df_src .corrupt =
        .error "[ERROR] Unable to read Excel file" := by
  constructor
  · refine ⟨_, rfl, ?_, ?_, ?_⟩
    · unfold Predict.texts_new
      rw [List.filter_eq_self.mpr]
      intro b hb
      obtain ⟨r, _, hr⟩ := List.mem_map.mp hb
      rw [← hr]
      rfl
    · simp [Predict.classifyRows]
    · intro r hr
      obtain ⟨b, _, hb⟩ := List.mem_map.mp hr
      rw [← hb]
      exact Predict.stepRow_label_isSome model b
  · rfl

/-- Witness for C5 (amended) at a concrete run. -/
theorem classify_absent_vs_corrupt_store_witness :
    (∃ res, Predict.classify Witness.modelW Witness.srcW .absent = .ok res
       ∧ res.batchTexts = (Witness.srcW.map (Predict.mergeRow none)).map Predict.ClsRow.text
       ∧ res.output.length = Witness.srcW.length
       ∧ ∀ r ∈ res.output, r.job_label.isSome = true)
    ∧ Predict.classify Witness.modelW Witness.srcW .corrupt =
        .error "[ERROR] Unable to read Excel file" :=
  classify_absent_vs_corrupt_store Witness.modelW Witness.srcW

namespace Rag

theorem entryOf_doc_id (embed : String → List Rat) (p : String × ParsedRow) :
    (entryOf embed p).doc_id = p.1 := rfl

theorem newRows_sub_ids (store : List VecEntry) (df : List ParsedRow)
    (p : String × ParsedRow) (hp : p ∈ newRows store df) : p.1 ∉ existingIds store := by
  have := (List.mem_filter.mp hp).2
  simpa using this

theorem existingIds_sync (embed : String → List Rat) (store : List VecEntry)
    (df : List ParsedRow) :
    existingIds (sync embed store df).newStore
      = existingIds store ++ (newRows store df).map Prod.fst := by
  unfold sync
  cases h : (newRows store df).isEmpty
  · simp only [h, Bool.false_eq_true, if_false]
    unfold existingIds
    rw [List.map_append, List.map_map]
    rfl
  · rw [List.isEmpty_iff.mp h]
    simp
theorem sync_nodup (embed : String → List Rat) (store : List VecEntry) (df : List ParsedRow)
    (hstore : (existingIds store).Nodup)
    (hdf : ((withDocIds df).map Prod.fst).Nodup) :
    (existingIds (sync embed store df).newStore).Nodup := by
  rw [existingIds_sync]
  apply List.Nodup.append hstore
  · exact List.Nodup.sublist ((List.filter_sublist _).map Prod.fst) hdf
  · intro x hx hx2
    obtain ⟨p, hp, hpx⟩ := List.mem_map.mp hx2
    exact newRows_sub_ids store df p hp (hpx ▸ hx)

theorem sync_of_empty (embed : String → List Rat) (store : List VecEntry)
    (df : List ParsedRow) (h : newRows store df = []) :
    sync embed store df = ⟨store, []⟩ := by
  unfold sync
  rw [h]
  rfl

theorem sync_second_run (embed : String → List Rat) (store : List VecEntry)
    (df : List ParsedRow) :
    sync embed (sync embed store df).newStore df = ⟨(sync embed store df).newStore, []⟩ := by
  have hids : ∀ p ∈ withDocIds df, p.1 ∈ existingIds (sync embed store df).newStore := by
    intro p hp
    rw [existingIds_sync]
    by_cases h : p.1 ∈ existingIds store
    · exact List.mem_append_left _ h
    · apply List.mem_append_right
      apply List.mem_map_of_mem Prod.fst
      exact List.mem_filter.mpr ⟨hp, by simpa using h⟩
  have hnew : newRows (sync embed store df).newStore df = [] := by
    apply List.filter_eq_nil_iff.mpr
    intro p hp
    simp only [decide_eq_true_eq, Decidable.not_not]
    exact hids p hp
  exact sync_of_empty embed _ df hnew

end Rag

/-- Claim C3: Vector-store synchronization never duplicates a doc_id:
across any number of runs the store ids stay pairwise distinct (given
distinct derived doc_ids per snapshot); within a run the embedding
collaborator receives exactly the documents of the delta rows, a row
whose derived doc_id is already stored is not in the delta, existing
entries are only ever appended to, and an empty delta inserts nothing and
embeds nothing. -/
theorem vector_store_dedup_sync (embed : String → List Rat) (store : List Rag.VecEntry)
    (dfs : List (List Rag.ParsedRow)) (df : List Rag.ParsedRow)
    (hstore : (Rag.existingIds store).Nodup)
    (hdfs : ∀ d ∈ dfs, ((Rag.withDocIds d).map Prod.fst).Nodup) :
    (Rag.existingIds (Rag.runAll embed store dfs)).Nodup
    ∧ (Rag.sync embed store df).embedded
        = (Rag.newRows store df).map (fun p => p.2.mailcontent)
    ∧ (∀ p ∈ Rag.withDocIds df, p.1 ∈ Rag.existingIds store → p ∉ Rag.newRows store df)
    ∧ (Rag.sync embed store df).newStore
        = store ++ (Rag.newRows store df).map (Rag.entryOf embed)
    ∧ (Rag.newRows store df = [] →
        (Rag.sync embed store df).newStore = store ∧ (Rag.sync embed store df).embedded = []) := by
  refine ⟨?_, ?_, ?_, ?_, ?_⟩
  · induction dfs generalizing store with
    | nil => exact hstore
    | cons d ds ih =>
        exact ih _ (Rag.sync_nodup embed store d hstore (hdfs d (List.mem_cons_self d ds)))
          (fun x hx => hdfs x (List.mem_cons_of_mem d hx))
  · unfold Rag.sync
    cases h : (Rag.newRows store df).isEmpty
    · simp [h]
    · rw [List.isEmpty_iff.mp h]
      simp
  · intro p hp hin hmem
    exact Rag.newRows_sub_ids store df p hmem hin
  · unfold Rag.sync
    cases h : (Rag.newRows store df).isEmpty
    · simp [h]
    · rw [List.isEmpty_iff.mp h]
      simp
  · intro hempty
    unfold Rag.sync
    rw [hempty]
    exact ⟨rfl, rfl⟩

/-- Witness for C3: one prior run already stored doc_id "link1"; the
classified store still derives "link1"; the delta is empty, nothing is
embedded or inserted. -/
theorem vector_store_dedup_sync_witness :
    (Rag.existingIds (Rag.runAll Witness.embedW Witness.storeW [Witness.dfW])).Nodup
    ∧ (Rag.sync Witness.embedW Witness.storeW Witness.dfW).embedded
        = (Rag.newRows Witness.storeW Witness.dfW).map (fun p => p.2.mailcontent)
    ∧ (∀ p ∈ Rag.withDocIds Witness.dfW,
        p.1 ∈ Rag.existingIds Witness.storeW → p ∉ Rag.newRows Witness.storeW Witness.dfW)
    ∧ (Rag.sync Witness.embedW Witness.storeW Witness.dfW).newStore
        = Witness.storeW ++ (Rag.newRows Witness.storeW Witness.dfW).map (Rag.entryOf Witness.embedW)
    ∧ (Rag.newRows Witness.storeW Witness.dfW = [] →
        (Rag.sync Witness.embedW Witness.storeW Witness.dfW).newStore = Witness.storeW
        ∧ (Rag.sync Witness.embedW Witness.storeW Witness.dfW).embedded = []) :=
  vector_store_dedup_sync Witness.embedW Witness.storeW [Witness.dfW] Witness.dfW
    (by decide)
    (by intro d hd; simp at hd; subst hd; decide)

/-- Claim C9: When retrieval returns zero documents, `llm_node` answers
with the fixed no-match string and the generation collaborator is not
invoked. -/
theorem llm_node_no_docs_short_circuit (llm : String → String) (state : Rag.RAGState)
    (h : state.retrieved_docs = []) :
    (Rag.llm_node llm state).state.answer = Rag.NO_MATCH_ANSWER
    ∧ (Rag.llm_node llm state).llmCalls = [] := by
  simp [Rag.llm_node, h]

/-- Witness for C9 at a concrete empty retrieval. -/
theorem llm_node_no_docs_short_circuit_witness :
    (Rag.llm_node Witness.llmW Witness.stateW).state.answer = Rag.NO_MATCH_ANSWER
    ∧ (Rag.llm_node Witness.llmW Witness.stateW).llmCalls = [] :=
  llm_node_no_docs_short_circuit Witness.llmW Witness.stateW rfl

namespace Gmailread

theorem get_details_id (detail : String → MsgDetail) (base msg_id : String) :
    (get_details detail base msg_id).id = msg_id := rfl

theorem length_filter_split {α : Type} (p : α → Bool) (l : List α) :
    (l.filter p).length + (l.filter (fun a => !(p a))).length = l.length := by
  induction l with
  | nil => rfl
  | cons a t ih =>
      cases h : p a <;> simp [List.filter_cons, h, ← ih] <;> omega

end Gmailread

/-- Claim C4: `fetch_new_as_dataframe` returns exactly the upstream-listed
ids that are not in `seen_ids`, in listing order; its size is the number
of upstream ids minus the number of upstream ids also in `seen_ids`
(as sets, when the listing has no duplicates); an empty `seen_ids` makes
every upstream id new, and an empty upstream listing yields an empty
delta. -/
theorem fetch_new_delta_correct (detail : String → Gmailread.MsgDetail)
    (gmail_web_base : String) (upstream : List String) (seen_ids : Finset String)
    (hnd : upstream.Nodup) :
    (Gmailread.fetch_new_as_dataframe detail gmail_web_base upstream seen_ids).rows.map
        Gmailread.MailRow.id = upstream.filter (fun mid => decide (mid ∉ seen_ids))
    ∧ (Gmailread.fetch_new_as_dataframe detail gmail_web_base upstream seen_ids).rows.length
        + (upstream.filter (fun mid => decide (mid ∈ seen_ids))).length = upstream.length
    ∧ (Gmailread.fetch_new_as_dataframe detail gmail_web_base upstream seen_ids).rows.length
        = upstream.toFinset.card - (upstream.toFinset ∩ seen_ids).card
    ∧ (seen_ids = ∅ →
        (Gmailread.fetch_new_as_dataframe detail gmail_web_base upstream seen_ids).rows.map
          Gmailread.MailRow.id = upstream)
    ∧ (upstream = [] →
        (Gmailread.fetch_new_as_dataframe detail gmail_web_base upstream seen_ids).rows = []) := by
  have hrows : (Gmailread.fetch_new_as_dataframe detail gmail_web_base upstream seen_ids).rows.map
      Gmailread.MailRow.id = upstream.filter (fun mid => decide (mid ∉ seen_ids)) := by
    show ((upstream.filter _).map (Gmailread.get_details detail gmail_web_base)).map
        Gmailread.MailRow.id = _
    rw [List.map_map]
    have : ∀ mid ∈ upstream.filter (fun mid => decide (mid ∉ seen_ids)),
        (Gmailread.MailRow.id ∘ Gmailread.get_details detail gmail_web_base) mid = id mid :=
      fun mid _ => rfl
    rw [List.map_congr_left this, List.map_id]
  have hlen : (Gmailread.fetch_new_as_dataframe detail gmail_web_base upstream seen_ids).rows.length
      = (upstream.filter (fun mid => decide (mid ∉ seen_ids))).length := by
    have := congrArg List.length hrows
    simpa using this
  refine ⟨hrows, ?_, ?_, ?_, ?_⟩
  · rw [hlen]
    have hfq : upstream.filter (fun mid => decide (mid ∈ seen_ids))
        = upstream.filter (fun mid => !(decide (mid ∉ seen_ids))) := by
      apply List.filter_congr
      intro mid _
      simp [decide_not]
    rw [hfq]
    exact Gmailread.length_filter_split (fun mid => decide (mid ∉ seen_ids)) upstream
  · rw [hlen]
    have hfnd : (upstream.filter (fun mid => decide (mid ∉ seen_ids))).Nodup :=
      List.Nodup.filter _ hnd
    have hcard : (upstream.filter (fun mid => decide (mid ∉ seen_ids))).toFinset
        = upstream.toFinset \ seen_ids := by
      ext x
      simp [List.mem_filter]
    rw [← List.toFinset_card_of_nodup hfnd, hcard]
    have := Finset.card_sdiff_add_card_inter upstream.toFinset seen_ids
    omega
  · intro hseen
    subst hseen
    rw [hrows]
    apply List.filter_eq_self.mpr
    intro mid _
    simp
  · intro hupstream
    subst hupstream
    rfl

/-- Witness for C4: two upstream ids, one already seen. -/
theorem fetch_new_delta_correct_witness :
    (Gmailread.fetch_new_as_dataframe Witness.detailW "base/" ["m1", "m2"]
        ({"m2"} : Finset String)).rows.map Gmailread.MailRow.id
      = ["m1", "m2"].filter (fun mid => decide (mid ∉ ({"m2"} : Finset String)))
    ∧ (Gmailread.fetch_new_as_dataframe Witness.detailW "base/" ["m1", "m2"]
        ({"m2"} : Finset String)).rows.length
        + (["m1", "m2"].filter (fun mid => decide (mid ∈ ({"m2"} : Finset String)))).length
        = (["m1", "m2"] : List String).length
    ∧ (Gmailread.fetch_new_as_dataframe Witness.detailW "base/" ["m1", "m2"]
        ({"m2"} : Finset String)).rows.length
        = (["m1", "m2"] : List String).toFinset.card
          - ((["m1", "m2"] : List String).toFinset ∩ ({"m2"} : Finset String)).card
    ∧ (({"m2"} : Finset String) = ∅ →
        (Gmailread.fetch_new_as_dataframe Witness.detailW "base/" ["m1", "m2"]
          ({"m2"} : Finset String)).rows.map Gmailread.MailRow.id = ["m1", "m2"])
    ∧ ((["m1", "m2"] : List String) = [] →
        (Gmailread.fetch_new_as_dataframe Witness.detailW "base/" ["m1", "m2"]
          ({"m2"} : Finset String)).rows = []) :=
  fetch_new_delta_correct Witness.detailW "base/" ["m1", "m2"] ({"m2"} : Finset String)
    (by decide)

theorem any_inStr_iff (ps : List String) (t : String) :
    ps.any (fun p => Pipeline.inStr p t) = true ↔ ∃ p ∈ ps, Pipeline.inStr p t = true := by
  simp [List.any_eq_true]

/-- Claim C2, counterexample: A sender on the hard-negative domain list
("chase" matches `NEGATIVE_DOMAINS`) with a high model probability (0.9,
threshold 0.2) is *accepted* by the runtime decision of
`process_and_update_csv`: the decision layer has no negative-sender rule,
so the item is not rejected. -/
theorem negative_sender_not_rejected :
    AutoTrain.is_negative_sender "alerts@chase.com" = true
    ∧ AgentV2.accepts (1/5) "Your account statement" "Your November statement is ready"
        "alerts@chase.com" (9/10) = true := by
  constructor
  · decide
  · have hs : AgentV2.has_strong_job_signal "Your account statement"
        "Your November statement is ready" "alerts@chase.com" = false := by decide
    have hp : ¬ ((9 : ℚ)/10 < 1/5) := by norm_num
    simp [AgentV2.accepts, hs, decide_eq_false hp]
    norm_num

/-- Claim C2, amended: The hard-negative domain rule exists only in the
weak-supervision training labeler `is_job_email_rule`, where it has
highest precedence: a hard-negative sender forces training label 0
regardless of any subject or body phrase. -/
theorem training_rule_negative_sender_zero (subject body sender : String)
    (h : AutoTrain.is_negative_sender (Pipeline.strLower sender) = true) :
    AutoTrain.is_job_email_rule subject body sender = 0 := by
  simp [AutoTrain.is_job_email_rule, h]

/-- Witness for C2 (amended): a negative sender yields label 0 even with
a strong subject phrase present. -/
theorem training_rule_negative_sender_zero_witness :
    AutoTrain.is_job_email_rule "Job offer inside" "We have received your application"
      "alerts@chase.com" = 0 :=
  training_rule_negative_sender_zero "Job offer inside"
    "We have received your application" "alerts@chase.com" (by decide)

/-- Claim C7, counterexample: The fine-grained status derivation of the
v2 agent has no opening/posting branch: a text matching the opening
phrase "we are hiring" (and none of the three v2 keyword lists) yields
`OTHER_JOB_EMAIL`, never `JOB_OPENING`. -/
theorem v2_status_job_opening_missing :
    AgentV2.infer_job_status "we are hiring" = "OTHER_JOB_EMAIL"
    ∧ AgentV2.infer_job_status "we are hiring" ≠ "JOB_OPENING" := by
  exact ⟨by decide, by decide⟩

/-- Claim C7, amended: In the v2 agent the status is derived
first-match-wins in exactly this order: application-confirmation phrases
give `APPLICATION_CONFIRMATION`; else interview phrases give
`INTERVIEW_INVITE`; else rejection phrases give `REJECTION`; else the
status is `OTHER_JOB_EMAIL`.  There is no opening/posting branch, so the
result is never `JOB_OPENING`. -/
theorem v2_status_precedence (text : String) :
    (AgentV2.infer_job_status text = "APPLICATION_CONFIRMATION"
       ↔ ∃ kw ∈ AgentV2.APPLICATION_CONFIRM_WORDS,
           Pipeline.inStr kw (Pipeline.strLower text) = true)
    ∧ (AgentV2.infer_job_status text = "INTERVIEW_INVITE"
       ↔ (¬ ∃ kw ∈ AgentV2.APPLICATION_CONFIRM_WORDS,
             Pipeline.inStr kw (Pipeline.strLower text) = true)
          ∧ ∃ kw ∈ AgentV2.INTERVIEW_WORDS, Pipeline.inStr kw (Pipeline.strLower text) = true)
    ∧ (AgentV2.infer_job_status text = "REJECTION"
       ↔ (¬ ∃ kw ∈ AgentV2.APPLICATION_CONFIRM_WORDS,
             Pipeline.inStr kw (Pipeline.strLower text) = true)
          ∧ (¬ ∃ kw ∈ AgentV2.INTERVIEW_WORDS,
             Pipeline.inStr kw (Pipeline.strLower text) = true)
          ∧ ∃ kw ∈ AgentV2.REJECTION_WORDS, Pipeline.inStr kw (Pipeline.strLower text) = true)
    ∧ (AgentV2.infer_job_status text = "OTHER_JOB_EMAIL"
       ↔ (¬ ∃ kw ∈ AgentV2.APPLICATION_CONFIRM_WORDS,
             Pipeline.inStr kw (Pipeline.strLower text) = true)
          ∧ (¬ ∃ kw ∈ AgentV2.INTERVIEW_WORDS,
             Pipeline.inStr kw (Pipeline.strLower text) = true)
          ∧ (¬ ∃ kw ∈ AgentV2.REJECTION_WORDS,
             Pipeline.inStr kw (Pipeline.strLower text) = true))
    ∧ AgentV2.infer_job_status text ≠ "JOB_OPENING" := by
  cases h1 : AgentV2.APPLICATION_CONFIRM_WORDS.any
      (fun kw => Pipeline.inStr kw (Pipeline.strLower text)) <;>
    cases h2 : AgentV2.INTERVIEW_WORDS.any
      (fun kw => Pipeline.inStr kw (Pipeline.strLower text)) <;>
      cases h3 : AgentV2.REJECTION_WORDS.any
        (fun kw => Pipeline.inStr kw (Pipeline.strLower text)) <;>
        simp [AgentV2.infer_job_status, h1, h2, h3, ← any_inStr_iff]

/-- Witness for C7 (amended) at the concrete text of the counterexample
input. -/
theorem v2_status_precedence_witness :
    (AgentV2.infer_job_status "we are hiring" = "APPLICATION_CONFIRMATION"
       ↔ ∃ kw ∈ AgentV2.APPLICATION_CONFIRM_WORDS,
           Pipeline.inStr kw (Pipeline.strLower "we are hiring") = true)
    ∧ (AgentV2.infer_job_status "we are hiring" = "INTERVIEW_INVITE"
       ↔ (¬ ∃ kw ∈ AgentV2.APPLICATION_CONFIRM_WORDS,
             Pipeline.inStr kw (Pipeline.strLower "we are hiring") = true)
          ∧ ∃ kw ∈ AgentV2.INTERVIEW_WORDS,
              Pipeline.inStr kw (Pipeline.strLower "we are hiring") = true)
    ∧ (AgentV2.infer_job_status "we are hiring" = "REJECTION"
       ↔ (¬ ∃ kw ∈ AgentV2.APPLICATION_CONFIRM_WORDS,
             Pipeline.inStr kw (Pipeline.strLower "we are hiring") = true)
          ∧ (¬ ∃ kw ∈ AgentV2.INTERVIEW_WORDS,
             Pipeline.inStr kw (Pipeline.strLower "we are hiring") = true)
          ∧ ∃ kw ∈ AgentV2.REJECTION_WORDS,
              Pipeline.inStr kw (Pipeline.strLower "we are hiring") = true)
    ∧ (AgentV2.infer_job_status "we are hiring" = "OTHER_JOB_EMAIL"
       ↔ (¬ ∃ kw ∈ AgentV2.APPLICATION_CONFIRM_WORDS,
             Pipeline.inStr kw (Pipeline.strLower "we are hiring") = true)
          ∧ (¬ ∃ kw ∈ AgentV2.INTERVIEW_WORDS,
             Pipeline.inStr kw (Pipeline.strLower "we are hiring") = true)
          ∧ (¬ ∃ kw ∈ AgentV2.REJECTION_WORDS,
             Pipeline.inStr kw (Pipeline.strLower "we are hiring") = true))
    ∧ AgentV2.infer_job_status "we are hiring" ≠ "JOB_OPENING" :=
  v2_status_precedence "we are hiring"

/-- Claim C8: Any input with a strong subject phrase, a strong body phrase,
or a known platform/vendor sender domain is accepted by the decision
layer for every model probability, including probabilities below the
threshold. -/
theorem strong_signal_overrides_low_probability
    (prob_threshold p_job : ℚ) (subject body sender : String)
    (h : (∃ ph ∈ AgentV2.STRONG_SUBJECT_INFER,
            Pipeline.inStr ph (Pipeline.strLower subject) = true)
       ∨ (∃ ph ∈ AgentV2.STRONG_BODY_INFER,
            Pipeline.inStr ph (Pipeline.strLower (subject ++ " [SEP] " ++ body)) = true)
       ∨ (∃ dom ∈ AgentV2.JOB_DOMAINS_INFER,
            Pipeline.inStr dom (Pipeline.strLower sender) = true)) :
    AgentV2.accepts prob_threshold subject body sender p_job = true := by
  have hstrong : AgentV2.has_strong_job_signal subject body sender = true := by
    rcases h with hsubj | hbody | hdom
    · have h2 : AgentV2.STRONG_SUBJECT_INFER.any
          (fun p => Pipeline.inStr p (Pipeline.strLower subject)) = true :=
        (any_inStr_iff _ _).mpr hsubj
      by_cases h1 : AgentV2.JOB_DOMAINS_INFER.any
          (fun dom => Pipeline.inStr dom (Pipeline.strLower sender)) = true
      · simp [AgentV2.has_strong_job_signal, h1]
      · simp [AgentV2.has_strong_job_signal, h1, h2]
    · have h3 : AgentV2.STRONG_BODY_INFER.any
          (fun p => Pipeline.inStr p (Pipeline.strLower (subject ++ " [SEP] " ++ body))) = true :=
        (any_inStr_iff _ _).mpr hbody
      by_cases h1 : AgentV2.JOB_DOMAINS_INFER.any
          (fun dom => Pipeline.inStr dom (Pipeline.strLower sender)) = true
      · simp [AgentV2.has_strong_job_signal, h1]
      · by_cases h2 : AgentV2.STRONG_SUBJECT_INFER.any
            (fun p => Pipeline.inStr p (Pipeline.strLower subject)) = true
        · simp [AgentV2.has_strong_job_signal, h1, h2]
        · simp [AgentV2.has_strong_job_signal, h1, h2, h3]
    · have h1 : AgentV2.JOB_DOMAINS_INFER.any
          (fun dom => Pipeline.inStr dom (Pipeline.strLower sender)) = true :=
        (any_inStr_iff _ _).mpr hdom
      simp [AgentV2.has_strong_job_signal, h1]
  simp [AgentV2.accepts, hstrong]

/-- Witness for C8: a LinkedIn sender with probability 0 and threshold 1
is accepted. -/
theorem strong_signal_overrides_low_probability_witness :
    AgentV2.accepts 1 "hello" "world" "jobs-noreply@linkedin.com" 0 = true :=
  strong_signal_overrides_low_probability 1 0 "hello" "world" "jobs-noreply@linkedin.com"
    (Or.inr (Or.inr ⟨"linkedin", by decide, by decide⟩))

namespace Predict

theorem mergeRow_subject (o : Option (List OldRow)) (r : SrcRow) :
    (mergeRow o r).subject = r.subject := by
  unfold mergeRow
  cases o with
  | none => rfl
  | some old => cases h : oldLookup old r.id <;> simp [h]

theorem mergeRow_body (o : Option (List OldRow)) (r : SrcRow) :
    (mergeRow o r).body = r.body := by
  unfold mergeRow
  cases o with
  | none => rfl
  | some old => cases h : oldLookup old r.id <;> simp [h]

theorem mergeRow_text (o : Option (List OldRow)) (r : SrcRow) :
    (mergeRow o r).text = r.subject ++ " " ++ r.body := by
  unfold mergeRow
  cases o with
  | none => rfl
  | some old => cases h : oldLookup old r.id <;> simp [h]

theorem stepRow_of_isSome (model : String → Nat × Rat) (r : ClsRow)
    (h : r.job_label.isSome = true) : stepRow model r = r := by
  unfold stepRow
  cases hl : r.job_label with
  | none => rw [hl] at h; simp at h
  | some l => simp [hl]

theorem find_first_of_nodup {β : Type} (key : β → String) (l : List β) (n : Nat) (a : β)
    (hnd : (l.map key).Nodup) (ha : l[n]? = some a) :
    l.find? (fun x => key x == key a) = some a := by
  induction l generalizing n with
  | nil => simp at ha
  | cons b t ih =>
      rw [List.map_cons, List.nodup_cons] at hnd
      cases n with
      | zero =>
          simp only [List.getElem?_cons_zero, Option.some.injEq] at ha
          subst ha
          simp [List.find?_cons]
      | succ m =>
          have ha2 : t[m]? = some a := by simpa using ha
          have hmem : key a ∈ t.map key := List.mem_map_of_mem key (List.getElem?_mem ha2)
          have hne : (key b == key a) = false :=
            beq_eq_false_iff_ne.mpr (fun hcontra => hnd.1 (hcontra ▸ hmem))
          rw [List.find?_cons]
          simp only [hne]
          exact ih m hnd.2 ha2

theorem classify_remerge (model : String → Nat × Rat) (o : Option (List OldRow))
    (df_src : List SrcRow) (hnodup : (df_src.map SrcRow.id).Nodup) :
    classify model df_src
        (.ok ((classifyRows model (df_src.map (mergeRow o))).map toOldRow))
      = .ok ⟨classifyRows model (df_src.map (mergeRow o)), []⟩ := by
  set out := classifyRows model (df_src.map (mergeRow o)) with hout
  set old2 := out.map toOldRow with hold2
  have hid : ∀ r : SrcRow, (toOldRow (stepRow model (mergeRow o r))).id = r.id := by
    intro r
    show (stepRow model (mergeRow o r)).id = r.id
    rw [stepRow_id, mergeRow_id]
  have hids : old2.map OldRow.id = df_src.map SrcRow.id := by
    rw [hold2, hout]
    unfold classifyRows
    rw [List.map_map, List.map_map, List.map_map]
    exact List.map_congr_left (fun r _ => hid r)
  have hnd2 : (old2.map OldRow.id).Nodup := by rw [hids]; exact hnodup
  have hout_get : ∀ (n : Nat) (srow : SrcRow), df_src[n]? = some srow →
      out[n]? = some (stepRow model (mergeRow o srow)) := by
    intro n srow hsrc
    rw [hout, classifyRows_getElem]
    simp [hsrc]
  have hbase2 : ∀ (n : Nat) (srow : SrcRow), df_src[n]? = some srow →
      mergeRow (some old2) srow = stepRow model (mergeRow o srow) := by
    intro n srow hsrc
    have h1 : old2[n]? = some (toOldRow (stepRow model (mergeRow o srow))) := by
      rw [hold2]
      simp [hout_get n srow hsrc]
    have hfind : oldLookup old2 srow.id
        = some (toOldRow (stepRow model (mergeRow o srow))) := by
      have hthis := find_first_of_nodup OldRow.id old2 n _ hnd2 h1
      simp only [hid srow] at hthis
      exact hthis
    rw [mergeRow_found old2 srow _ hfind]
    apply ClsRow.ext
    · rw [stepRow_id, mergeRow_id]
    · rw [stepRow_subject, mergeRow_subject]
    · rw [stepRow_body, mergeRow_body]
    · rw [stepRow_text, mergeRow_text]
    · rfl
    · rfl
  have hb2out : classifyRows model (df_src.map (mergeRow (some old2))) = out := by
    apply List.ext_getElem?
    intro n
    rw [classifyRows_getElem, List.getElem?_map]
    cases hsrc : df_src[n]? with
    | none =>
        rw [hout, classifyRows_getElem]
        simp [hsrc]
    | some srow =>
        simp only [Option.map_some']
        rw [hbase2 n srow hsrc,
          stepRow_of_isSome model _ (stepRow_label_isSome model (mergeRow o srow)),
          hout_get n srow hsrc]
  have hbt : texts_new (df_src.map (mergeRow (some old2))) = [] := by
    unfold texts_new
    rw [List.filter_eq_nil_iff.mpr]
    · rfl
    · intro b hb
      obtain ⟨srow, hsrow, hbeq⟩ := List.mem_map.mp hb
      obtain ⟨n, hsrc⟩ := List.mem_iff_getElem?.mp hsrow
      rw [← hbeq, hbase2 n srow hsrc]
      have := stepRow_label_isSome model (mergeRow o srow)
      simp [Option.isNone] at this ⊢
      cases hcl : (stepRow model (mergeRow o srow)).job_label with
      | none => rw [hcl] at this; simp at this
      | some l => simp
  show Except.ok (ClassifyResult.mk
      (classifyRows model (df_src.map (mergeRow (some old2))))
      (texts_new (df_src.map (mergeRow (some old2)))))
    = Except.ok (ClassifyResult.mk out [])
  rw [hb2out, hbt]

end Predict

/-- Claim C6: Running the pipeline again with no new upstream items is a
no-op: re-running `classify` on the same source against the classified
store persisted by the previous run reproduces that store exactly and
hands the model an empty batch, and re-running the vector-store sync on
the store left by the previous sync inserts nothing and embeds nothing. -/
theorem pipeline_second_run_noop (model : String → Nat × Rat)
    (embed : String → List Rat) (df_src : List Predict.SrcRow)
    (oldFile : Predict.OldFileState) (store : List Rag.VecEntry)
    (df : List Rag.ParsedRow) (res1 : Predict.ClassifyResult)
    (hnodup : (df_src.map Predict.SrcRow.id).Nodup)
    (h1 : Predict.classify model df_src oldFile = .ok res1) :
    Predict.classify model df_src (.ok (res1.output.map Predict.toOldRow))
        = .ok ⟨res1.output, []⟩
    ∧ Rag.sync embed (Rag.sync embed store df).newStore df
        = ⟨(Rag.sync embed store df).newStore, []⟩ := by
  refine ⟨?_, Rag.sync_second_run embed store df⟩
  cases oldFile with
  | corrupt => exact absurd h1 (by simp [Predict.classify, Predict.load_excel_safely])
  | absent =>
      have hres := Except.ok.inj h1
      subst hres
      exact Predict.classify_remerge model none df_src hnodup
  | ok old =>
      have hres := Except.ok.inj h1
      subst hres
      exact Predict.classify_remerge model (some old) df_src hnodup

/-- Witness for C6 at a concrete first run from an absent store. -/
theorem pipeline_second_run_noop_witness :
    Predict.classify Witness.modelW Witness.srcW
        (.ok (Witness.res1W.output.map Predict.toOldRow))
      = .ok ⟨Witness.res1W.output, []⟩
    ∧ Rag.sync Witness.embedW (Rag.sync Witness.embedW Witness.storeW Witness.dfW).newStore
        Witness.dfW
      = ⟨(Rag.sync Witness.embedW Witness.storeW Witness.dfW).newStore, []⟩ :=
  pipeline_second_run_noop Witness.modelW Witness.embedW Witness.srcW .absent
    Witness.storeW Witness.dfW Witness.res1W (by decide) rfl
